import Mathlib

/-!
Verification of the grant/privilege model of `sqlalchemy-declarative-extensions`
(`sqlalchemy_declarative_extensions/dialects/postgresql/grant.py`), as a shallow
embedding in Lean.  Value objects `Grant`, `DefaultGrant`, `GrantStatement` and
`DefaultGrantStatement` are translated from the Python dataclasses; the SQL
renderer follows the `to_sql` implementations line by line.  The privilege
vocabulary (`grant_type.py`) and the diff engine are not part of the visible
excerpt and are modelled from the specification where a claim needs them; such
definitions carry a `Modelled from the spec:` doc comment.
-/

namespace SqlaDeclExt

/-- Python string comparison, `a <= b`: lexicographic on code points
(`str.__le__`).  Lean's built-in `String` order is avoided because it does not
reduce in the kernel. -/
def lexLeb : List Char → List Char → Bool
  | [], _ => true
  | _ :: _, [] => false
  | a :: as, b :: bs =>
    if a.toNat = b.toNat then lexLeb as bs else Nat.blt a.toNat b.toNat

/-- `a <= b` for Python strings, as a proposition. -/
def pyStrLe (a b : String) : Prop := lexLeb a.data b.data = true

instance : DecidableRel pyStrLe := fun _ _ => instDecidableEqBool _ _

/-- Modelled from the spec: the closed enumeration of privilege kinds appearing
in the per-object-type vocabularies of `grant_type.py` (not in the excerpt);
spec section 3 lists the kinds per object type and the wildcard ALL. -/
inductive Priv
  | select
  | insert
  | update
  | delete
  | truncate
  | references
  | trigger
  | usage
  | create
  | execute
  | all
deriving DecidableEq

/-- Canonical (SQL) spelling of a privilege kind. -/
def Priv.canonicalName : Priv → String
  | .select => "SELECT"
  | .insert => "INSERT"
  | .update => "UPDATE"
  | .delete => "DELETE"
  | .truncate => "TRUNCATE"
  | .references => "REFERENCES"
  | .trigger => "TRIGGER"
  | .usage => "USAGE"
  | .create => "CREATE"
  | .execute => "EXECUTE"
  | .all => "ALL"

/-- `GrantTypes`: the object types a direct grant statement can target. -/
inductive GrantTypes
  | table
  | sequence
  | schema
  | function
  | type
deriving DecidableEq

/-- `GrantTypes.value`, the singular SQL keyword used in `ON {value}`. -/
def GrantTypes.value : GrantTypes → String
  | .table => "TABLE"
  | .sequence => "SEQUENCE"
  | .schema => "SCHEMA"
  | .function => "FUNCTION"
  | .type => "TYPE"

/-- Modelled from the spec: the per-object-type privilege vocabulary
(`to_variants()` in `grant_type.py`, not in the excerpt); spec section 3 gives
each object type's enumeration in declared order. -/
def GrantTypes.kinds : GrantTypes → List Priv
  | .table => [.select, .insert, .update, .delete, .truncate, .references, .trigger]
  | .sequence => [.usage, .select, .update]
  | .schema => [.usage, .create]
  | .function => [.execute]
  | .type => [.usage]

/-- `DefaultGrantTypes`: object types of ALTER DEFAULT PRIVILEGES statements. -/
inductive DefaultGrantTypes
  | table
  | sequence
  | type
  | function
deriving DecidableEq

/-- `DefaultGrantTypes.value`, the singular keyword pluralized by `to_sql`. -/
def DefaultGrantTypes.value : DefaultGrantTypes → String
  | .table => "TABLE"
  | .sequence => "SEQUENCE"
  | .type => "TYPE"
  | .function => "FUNCTION"

/-- Modelled from the spec: privilege vocabulary for default grant types. -/
def DefaultGrantTypes.kinds : DefaultGrantTypes → List Priv
  | .table => [.select, .insert, .update, .delete, .truncate, .references, .trigger]
  | .sequence => [.usage, .select, .update]
  | .type => [.usage]
  | .function => [.execute]

/-- Errors the Python code can raise on these paths: `typeError` is Python's
own missing-argument/uncomparable-types `TypeError`; the other two are the
error kinds named by the specification (section 7). -/
inductive PyErr
  | typeError
  | emptyGrantError
  | unknownPrivilegeError
deriving DecidableEq

/-- A role/schema/table argument: either a plain Python string or an object
satisfying the `HasName` protocol (carrying a `.name` attribute). -/
inductive RoleRef
  | strName (s : String)
  | objNamed (name : String)
deriving DecidableEq

/-- `_coerce_name`: return the string itself, or the object's `.name`. -/
def coerce_name : RoleRef → String
  | .strName s => s
  | .objNamed n => n

/-- Modelled from the spec: Python's `str()` of a name-bearing object that is
interpolated unresolved into an f-string (its exact repr is immaterial to the
claims; only that it is not the bare name matters). -/
def RoleRef.pyStr : RoleRef → String
  | .strName s => s
  | .objNamed n => "<object " ++ n ++ ">"

/-- Python truthiness of a role value: `None` and `""` are falsy. -/
def RoleRef.truthy : RoleRef → Bool
  | .strName s => !s.data.isEmpty
  | .objNamed _ => true

/-- A privilege value as stored in `Grant.grants`: a raw string or a typed
variant-enum member (`Union[str, G]`). -/
inductive PrivArg
  | rawStr (s : String)
  | kind (k : Priv)
deriving DecidableEq

/-- Modelled from the spec: the sort key used by Python `sorted` on privilege
values — raw strings compare as themselves, typed kinds by canonical name
(spec section 4.2: "sorted by canonical name"; the enum's own ordering lives
in `grant_type.py`, which is not in the excerpt). -/
def privKey : PrivArg → String
  | .rawStr s => s
  | .kind k => k.canonicalName

/-- Ordering of privilege values used by `sorted` in `Grant.new` and
`_map_grant_names`. -/
def privLe (a b : PrivArg) : Prop := pyStrLe (privKey a) (privKey b)

instance : DecidableRel privLe := fun _ _ => instDecidableEqBool _ _

/-- The `Grant` dataclass: privileges, grantee, grant-option and revoke
flags. -/
structure Grant where
  grants : List PrivArg
  target_role : RoleRef
  grant_option : Bool
  revoke_ : Bool
deriving DecidableEq

/-- `Grant.new`: sorts the privilege arguments (`tuple(sorted([grant,
*grants]))`) and resolves the grantee with `_coerce_name`. -/
def Grant.new (g : PrivArg) (gs : List PrivArg) (toArg : RoleRef) (grant_option : Bool) : Grant :=
  { grants := List.insertionSort privLe (g :: gs)
    target_role := .strName (coerce_name toArg)
    grant_option := grant_option
    revoke_ := false }

/-- A call to `Grant.new` at the Python call-site level: the signature
`new(cls, grant, *grants, to, grant_option=False)` makes a call with zero
privilege arguments a missing-positional-argument `TypeError`. -/
def Grant.newCall (args : List PrivArg) (toArg : RoleRef) (grant_option : Bool) :
    Except PyErr Grant :=
  match args with
  | [] => .error .typeError
  | g :: gs => .ok (Grant.new g gs toArg grant_option)

/-- `Grant.revoke`: copy with `revoke_=True`. -/
def Grant.revoke (g : Grant) : Grant := { g with revoke_ := true }

/-- `Grant.with_grant_option`: copy with `grant_option=True`. -/
def Grant.with_grant_option (g : Grant) : Grant := { g with grant_option := true }

/-- Case-insensitive comparison key of a string (Python `.lower()` on ASCII,
used by the vocabulary's string-to-kind coercion). -/
def ciKey (s : String) : List Nat :=
  s.data.map fun c => if 65 ≤ c.toNat ∧ c.toNat ≤ 90 then c.toNat + 32 else c.toNat

/-- Modelled from the spec: `coerce(object_type, raw)` / `from_string` of
`grant_type.py` (not in the excerpt) — case-insensitive lookup in the object
type's enumeration, recognizing "ALL", failing with `UnknownPrivilegeError`
otherwise (spec section 4.1). -/
def fromString (kinds : List Priv) (s : String) : Except PyErr Priv :=
  if ciKey s = ciKey "ALL" then .ok .all
  else
    match kinds.find? (fun k => ciKey k.canonicalName == ciKey s) with
    | some k => .ok k
    | none => .error .unknownPrivilegeError

/-- `_map_grant_names`: keep already-typed kinds, coerce raw strings through
the variant vocabulary, and sort. -/
def map_grant_names (kinds : List Priv) (gs : List PrivArg) : Except PyErr (List PrivArg) := do
  let coerced ← gs.mapM fun g =>
    match g with
    | PrivArg.kind k => Except.ok (PrivArg.kind k)
    | PrivArg.rawStr s => (fromString kinds s).map PrivArg.kind
  Except.ok (List.insertionSort privLe coerced)

/-- The `GrantStatement` dataclass. -/
structure GrantStatement where
  grant : Grant
  grant_type : GrantTypes
  targets : List String
deriving DecidableEq

/-- `Grant.on_objects`: coerce the stored privileges through the object type's
vocabulary, coerce each target name, and build a `GrantStatement`; the target
names are stored in the order given. -/
def Grant.on_objects (g : Grant) (objects : List RoleRef) (object_type : GrantTypes) :
    Except PyErr GrantStatement :=
  (map_grant_names object_type.kinds g.grants).map fun gs =>
    { grant := { g with grants := gs }
      grant_type := object_type
      targets := objects.map coerce_name }

/-- `Grant.on_tables`. -/
def Grant.on_tables (g : Grant) (tables : List RoleRef) : Except PyErr GrantStatement :=
  g.on_objects tables GrantTypes.table

/-- `Grant.on_schemas`. -/
def Grant.on_schemas (g : Grant) (schemas : List RoleRef) : Except PyErr GrantStatement :=
  g.on_objects schemas GrantTypes.schema

/-- The `DefaultGrant` dataclass.  `target_role` is annotated `Optional[str]`
in the Python code, but `DefaultGrantStatement.for_role` stores an unresolved
object into it, so the field is embedded at the `RoleRef` union type. -/
structure DefaultGrant where
  grant_type : DefaultGrantTypes
  in_schemas : List String
  target_role : Option RoleRef
deriving DecidableEq

/-- `_map_schema_names`: coerce each schema argument and sort the names. -/
def map_schema_names (schemas : List RoleRef) : List String :=
  List.insertionSort pyStrLe (schemas.map coerce_name)

/-- `DefaultGrant.on_tables_in_schema`. -/
def DefaultGrant.on_tables_in_schema (in_schemas : List RoleRef) (for_role : Option RoleRef) :
    DefaultGrant :=
  { grant_type := .table
    in_schemas := map_schema_names in_schemas
    target_role := for_role.map fun r => .strName (coerce_name r) }

/-- `DefaultGrant.on_sequences_in_schema`. -/
def DefaultGrant.on_sequences_in_schema (in_schemas : List RoleRef) (for_role : Option RoleRef) :
    DefaultGrant :=
  { grant_type := .sequence
    in_schemas := map_schema_names in_schemas
    target_role := for_role.map fun r => .strName (coerce_name r) }

/-- `DefaultGrant.on_types_in_schema`. -/
def DefaultGrant.on_types_in_schema (in_schemas : List RoleRef) (for_role : Option RoleRef) :
    DefaultGrant :=
  { grant_type := .type
    in_schemas := map_schema_names in_schemas
    target_role := for_role.map fun r => .strName (coerce_name r) }

/-- `DefaultGrant.on_functions_in_schema`. -/
def DefaultGrant.on_functions_in_schema (in_schemas : List RoleRef) (for_role : Option RoleRef) :
    DefaultGrant :=
  { grant_type := .function
    in_schemas := map_schema_names in_schemas
    target_role := for_role.map fun r => .strName (coerce_name r) }

/-- `DefaultGrant.for_role`: copy with the role stored as given. -/
def DefaultGrant.for_role (dg : DefaultGrant) (role : RoleRef) : DefaultGrant :=
  { dg with target_role := some role }

/-- The `DefaultGrantStatement` dataclass. -/
structure DefaultGrantStatement where
  default_grant : DefaultGrant
  grant : Grant
deriving DecidableEq

/-- The first argument of `DefaultGrant.grant`: a privilege value or an
already-built `Grant`. -/
inductive GrantArg
  | privArg (p : PrivArg)
  | grantObj (g : Grant)

/-- `DefaultGrant.grant`: when handed privilege values it constructs the inner
`Grant` directly, storing the `to` argument UNRESOLVED (no `_coerce_name`
call, unlike `Grant.new`). -/
def DefaultGrant.grant (dg : DefaultGrant) (g : GrantArg) (gs : List PrivArg) (toArg : RoleRef)
    (grant_option : Bool) : Except PyErr DefaultGrantStatement :=
  match g with
  | .grantObj gr => .ok ⟨dg, gr⟩
  | .privArg p =>
    (map_grant_names dg.grant_type.kinds (p :: gs)).map fun coerced =>
      ⟨dg, { grants := coerced, target_role := toArg, grant_option := grant_option,
             revoke_ := false }⟩

/-- `DefaultGrantStatement.for_role`: stores the role argument UNRESOLVED into
`default_grant.target_role`. -/
def DefaultGrantStatement.for_role (s : DefaultGrantStatement) (role : RoleRef) :
    DefaultGrantStatement :=
  { s with default_grant := { s.default_grant with target_role := some role } }

/-- `DefaultGrantStatement.invert`: flip the revoke flag. -/
def DefaultGrantStatement.invert (s : DefaultGrantStatement) : DefaultGrantStatement :=
  { s with grant := { s.grant with revoke_ := !s.grant.revoke_ } }

/-- `GrantStatement.invert`: flip the revoke flag. -/
def GrantStatement.invert (s : GrantStatement) : GrantStatement :=
  { s with grant := { s.grant with revoke_ := !s.grant.revoke_ } }

/-- `GrantStatement.for_role`: stores the role RESOLVED via `_coerce_name`. -/
def GrantStatement.for_role (s : GrantStatement) (role : RoleRef) : GrantStatement :=
  { s with grant := { s.grant with target_role := .strName (coerce_name role) } }

/-- `_render_grant_or_revoke`. -/
def render_grant_or_revoke (g : Grant) : String :=
  if g.revoke_ then "REVOKE" else "GRANT"

/-- Double-quoting of an identifier, `f'"{t}"'`. -/
def quoteIdent (s : String) : String := "\"" ++ s ++ "\""

/-- `_render_to_or_from`. -/
def render_to_or_from (g : Grant) : String :=
  if g.revoke_ then "FROM " ++ quoteIdent g.target_role.pyStr
  else "TO " ++ quoteIdent g.target_role.pyStr

/-- `_render_grant_option`: returns the clause whenever `grant_option` is set,
with no check of the revoke flag. -/
def render_grant_option (g : Grant) : Option String :=
  if g.grant_option then some "WITH GRANT OPTION" else none

/-- Position of a kind in the vocabulary's declared order (wildcard last). -/
def privIndex (kinds : List Priv) (k : Priv) : Nat := kinds.indexOf k

/-- Modelled from the spec: `from_strings` of `grant_type.py` (not in the
excerpt) — coerce each stored value to a kind and return the kinds in the
enumeration's declared order (spec section 4.4, step 2). -/
def fromStrings (kinds : List Priv) (vals : List PrivArg) : Except PyErr (List Priv) := do
  let ks ← vals.mapM fun v =>
    match v with
    | PrivArg.kind k => Except.ok k
    | PrivArg.rawStr s => fromString kinds s
  Except.ok (@List.insertionSort Priv (fun a b => privIndex kinds a ≤ privIndex kinds b)
    (fun _ _ => Nat.decLe _ _) ks)

/-- `_render_privilege`: comma-joined canonical names of the coerced kinds. -/
def render_privilege (g : Grant) (kinds : List Priv) : Except PyErr String :=
  (fromStrings kinds g.grants).map fun ks =>
    String.intercalate ", " (ks.map Priv.canonicalName)

/-- Python `" ".join`. -/
def joinSpace : List String → String
  | [] => ""
  | [x] => x
  | x :: y :: ys => x ++ " " ++ joinSpace (y :: ys)

/-- The list `result` built by `GrantStatement.to_sql` before `" ".join`. -/
def GrantStatement.toSqlParts (s : GrantStatement) : Except PyErr (List String) :=
  (render_privilege s.grant s.grant_type.kinds).map fun priv =>
    [render_grant_or_revoke s.grant,
     priv,
     "ON " ++ s.grant_type.value,
     String.intercalate ", " (s.targets.map quoteIdent),
     render_to_or_from s.grant] ++
    (match render_grant_option s.grant with
     | some go => [go]
     | none => [])

/-- `GrantStatement.to_sql`: `" ".join(result) + ";"`. -/
def GrantStatement.toSql (s : GrantStatement) : Except PyErr String :=
  s.toSqlParts.map fun parts => joinSpace parts ++ ";"

/-- The list `result` built by `DefaultGrantStatement.to_sql`; note that it
never consults `_render_grant_option`. -/
def DefaultGrantStatement.toSqlParts (s : DefaultGrantStatement) : Except PyErr (List String) :=
  (render_privilege s.grant s.default_grant.grant_type.kinds).map fun priv =>
    ["ALTER DEFAULT PRIVILEGES"] ++
    (match s.default_grant.target_role with
     | some r => if r.truthy then ["FOR ROLE " ++ quoteIdent r.pyStr] else []
     | none => []) ++
    ["IN SCHEMA " ++ String.intercalate ", " (s.default_grant.in_schemas.map quoteIdent),
     render_grant_or_revoke s.grant,
     priv,
     "ON " ++ s.default_grant.grant_type.value ++ "S",
     render_to_or_from s.grant]

/-- `DefaultGrantStatement.to_sql`. -/
def DefaultGrantStatement.toSql (s : DefaultGrantStatement) : Except PyErr String :=
  s.toSqlParts.map fun parts => joinSpace parts ++ ";"

/-- `GrantStatement.explode`: one single-privilege single-target statement per
(target, privilege) pair, all flags carried over. -/
def GrantStatement.explode (s : GrantStatement) : List GrantStatement :=
  s.targets.flatMap fun target =>
    s.grant.grants.map fun g =>
      { grant := { grants := [g]
                   target_role := s.grant.target_role
                   grant_option := s.grant.grant_option
                   revoke_ := s.grant.revoke_ }
        grant_type := s.grant_type
        targets := [target] }

/-- A declared statement handed to the diff engine: direct or default. -/
inductive Stmt
  | direct (g : GrantStatement)
  | deflt (d : DefaultGrantStatement)

/-- Modelled from the spec: the atomic comparison unit — a single
`(privilege, grantee, object_type, target_or_schema, granting_role_or_none)`
tuple, the revoke flag excluded from identity (spec section 3). -/
structure AtomicUnit where
  priv : PrivArg
  grantee : RoleRef
  objType : Sum GrantTypes DefaultGrantTypes
  target : String
  granting_role : Option RoleRef
deriving DecidableEq

/-- Modelled from the spec: decomposition of a declared statement into atomic
units, one per privilege-target (or privilege-schema) pair. -/
def Stmt.explodeAtoms : Stmt → List AtomicUnit
  | .direct s =>
    s.targets.flatMap fun t =>
      s.grant.grants.map fun p =>
        ⟨p, s.grant.target_role, Sum.inl s.grant_type, t, none⟩
  | .deflt d =>
    d.default_grant.in_schemas.flatMap fun sc =>
      d.grant.grants.map fun p =>
        ⟨p, d.grant.target_role, Sum.inr d.default_grant.grant_type, sc,
         d.default_grant.target_role⟩

/-- Atomic units of a whole declared set. -/
def explodeAll (declared : List Stmt) : List AtomicUnit :=
  declared.flatMap Stmt.explodeAtoms

/-- An emitted operation of the diff engine. -/
inductive Operation
  | grantOp (u : AtomicUnit)
  | revokeOp (u : AtomicUnit)
deriving DecidableEq

/-- Modelled from the spec: the diff engine (spec section 4.5) — explode the
declared set into atomic units `D`, emit a grant for every unit of `D` missing
from the live set, and a revoke for every live unit missing from `D` that the
caller-supplied scope filter admits. -/
def compare (declared : List Stmt) (live : List AtomicUnit) (scope : AtomicUnit → Bool) :
    List Operation :=
  (((explodeAll declared).dedup.filter fun u => !decide (u ∈ live)).map Operation.grantOp) ++
  ((live.filter fun u =>
      !decide (u ∈ (explodeAll declared).dedup) && scope u).map Operation.revokeOp)

/-! Order-theoretic facts about the Python string comparison, needed to reason
about `sorted`. -/

theorem lexLeb_total : ∀ as bs : List Char, lexLeb as bs = true ∨ lexLeb bs as = true := by
  intro as
  induction as with
  | nil => intro bs; left; rfl
  | cons a as ih =>
    intro bs
    cases bs with
    | nil => right; rfl
    | cons b bs =>
      by_cases h : a.toNat = b.toNat
      · rcases ih bs with h1 | h1
        · left; simp [lexLeb, h, h1]
        · right; simp [lexLeb, h.symm, h1]
      · rcases Nat.lt_or_ge a.toNat b.toNat with hlt | hge
        · left; simp [lexLeb, h, Nat.blt_eq, hlt]
        · right
          have hne : b.toNat ≠ a.toNat := fun hb => h hb.symm
          simp [lexLeb, hne, Nat.blt_eq]
          omega

theorem lexLeb_trans : ∀ as bs cs : List Char,
    lexLeb as bs = true → lexLeb bs cs = true → lexLeb as cs = true := by
  intro as
  induction as with
  | nil => intro bs cs _ _; rfl
  | cons a as ih =>
    intro bs cs hab hbc
    cases bs with
    | nil => simp [lexLeb] at hab
    | cons b bs =>
      cases cs with
      | nil => simp [lexLeb] at hbc
      | cons c cs =>
        by_cases h1 : a.toNat = b.toNat <;> by_cases h2 : b.toNat = c.toNat
        · simp only [lexLeb, if_pos h1] at hab
          simp only [lexLeb, if_pos h2] at hbc
          simp only [lexLeb, if_pos (h1.trans h2)]
          exact ih bs cs hab hbc
        · simp only [lexLeb, if_pos h1] at hab
          simp only [lexLeb, if_neg h2, Nat.blt_eq] at hbc
          have hne : a.toNat ≠ c.toNat := by omega
          simp only [lexLeb, if_neg hne, Nat.blt_eq]
          omega
        · simp only [lexLeb, if_neg h1, Nat.blt_eq] at hab
          simp only [lexLeb, if_pos h2] at hbc
          have hne : a.toNat ≠ c.toNat := by omega
          simp only [lexLeb, if_neg hne, Nat.blt_eq]
          omega
        · simp only [lexLeb, if_neg h1, Nat.blt_eq] at hab
          simp only [lexLeb, if_neg h2, Nat.blt_eq] at hbc
          have hne : a.toNat ≠ c.toNat := by omega
          simp only [lexLeb, if_neg hne, Nat.blt_eq]
          omega

theorem lexLeb_antisymm : ∀ as bs : List Char,
    lexLeb as bs = true → lexLeb bs as = true → as = bs := by
  intro as
  induction as with
  | nil =>
    intro bs _ hba
    cases bs with
    | nil => rfl
    | cons b bs => simp [lexLeb] at hba
  | cons a as ih =>
    intro bs hab hba
    cases bs with
    | nil => simp [lexLeb] at hab
    | cons b bs =>
      by_cases h : a.toNat = b.toNat
      · have hchar : a = b := Char.ext (UInt32.ext h)
        simp [lexLeb, h] at hab
        simp [lexLeb, h.symm] at hba
        rw [hchar, ih bs hab hba]
      · have hne : b.toNat ≠ a.toNat := fun hb => h hb.symm
        simp [lexLeb, h, Nat.blt_eq] at hab
        simp [lexLeb, hne, Nat.blt_eq] at hba
        omega

instance : IsTotal String pyStrLe := ⟨fun a b => lexLeb_total a.data b.data⟩

instance : IsTrans String pyStrLe := ⟨fun a b c => lexLeb_trans a.data b.data c.data⟩

instance : IsAntisymm String pyStrLe :=
  ⟨fun a b h1 h2 => String.ext (lexLeb_antisymm a.data b.data h1 h2)⟩

instance : IsTotal PrivArg privLe := ⟨fun a b => lexLeb_total (privKey a).data (privKey b).data⟩

instance : IsTrans PrivArg privLe :=
  ⟨fun a b c => lexLeb_trans (privKey a).data (privKey b).data (privKey c).data⟩

/-! Substring machinery for rendered SQL text. -/

/-- `needle` occurs contiguously inside `hay`. -/
def substr (needle hay : String) : Prop := needle.data <:+: hay.data

/-- `s` ends with `tail`. -/
def strEndsWith (s tail : String) : Prop := tail.data <:+ s.data

theorem mem_joinSpace_substr : ∀ (l : List String) (x : String), x ∈ l → substr x (joinSpace l) := by
  intro l
  induction l with
  | nil => intro x hx; cases hx
  | cons y ys ih =>
    intro x hx
    cases ys with
    | nil =>
      have hxy : x = y := by simpa using hx
      subst hxy
      exact ⟨[], [], by simp [joinSpace]⟩
    | cons z zs =>
      rcases List.mem_cons.mp hx with h | h
      · subst h
        refine ⟨[], (" " ++ joinSpace (z :: zs)).data, ?_⟩
        simp [joinSpace, String.data_append, List.append_assoc]
      · obtain ⟨s, t, hst⟩ := ih x h
        refine ⟨(y ++ " ").data ++ s, t, ?_⟩
        simp only [joinSpace, String.data_append, List.append_assoc]
        rw [← hst]
        simp [String.data_append, List.append_assoc]

theorem substr_append_semicolon {x j : String} (h : substr x j) : substr x (j ++ ";") := by
  obtain ⟨s, t, hst⟩ := h
  exact ⟨s, t ++ ";".data, by rw [String.data_append, ← hst]; simp [List.append_assoc]⟩

theorem substr_of_mem_parts {x : String} {l : List String} (hx : x ∈ l) :
    substr x (joinSpace l ++ ";") :=
  substr_append_semicolon (mem_joinSpace_substr l x hx)

theorem endsWith_semicolon (j : String) : strEndsWith (j ++ ";") ";" := by
  show (";" : String).data <:+ (j ++ ";").data
  rw [String.data_append]
  exact List.suffix_append _ _

theorem flatMap_map_length {α β γ : Type} (ts : List α) (gs : List β) (f : α → β → γ) :
    (ts.flatMap fun t => gs.map (f t)).length = ts.length * gs.length := by
  induction ts with
  | nil => simp
  | cons t ts ih =>
    simp only [List.flatMap_cons, List.length_append, List.length_map, ih, List.length_cons,
      Nat.succ_mul]
    omega

/-- C1: Idempotence of the diff — for every declared set of statements,
comparing against a live set equal to the declared set's own exploded atomic
units yields an empty operation list. -/
theorem compare_explode_self_empty (declared : List Stmt) (scope : AtomicUnit → Bool) :
    compare declared (explodeAll declared) scope = [] := by
  have h1 : ((explodeAll declared).dedup.filter
      fun u => !decide (u ∈ explodeAll declared)) = [] := by
    rw [List.filter_eq_nil_iff]
    intro a ha
    simp [List.mem_dedup.mp ha]
  have h2 : ((explodeAll declared).filter
      fun u => !decide (u ∈ (explodeAll declared).dedup) && scope u) = [] := by
    rw [List.filter_eq_nil_iff]
    intro a ha
    simp [List.mem_dedup.mpr ha]
  unfold compare
  rw [h1, h2]
  rfl

/-- C2 counterexample: `Grant.new` does NOT deduplicate — passing the same
privilege twice yields a `Grant` containing it twice (`sorted` keeps
duplicates). -/
theorem grant_new_duplicate_kept_ce :
    List.count (PrivArg.rawStr "select")
      (Grant.new (PrivArg.rawStr "select") [PrivArg.rawStr "select"]
        (RoleRef.strName "r") false).grants = 2 := by decide

/-- C2 (amended): the privilege collection built by `Grant.new` is sorted and
multiplicity-preserving: it is a permutation of the arguments (duplicates are
kept, nothing is dropped) arranged in sorted order. -/
theorem grant_new_sorted_and_multiplicity_preserving
    (g : PrivArg) (gs : List PrivArg) (toArg : RoleRef) (opt : Bool) :
    List.Perm (Grant.new g gs toArg opt).grants (g :: gs) ∧
    List.Sorted privLe (Grant.new g gs toArg opt).grants :=
  ⟨List.perm_insertionSort privLe (g :: gs), List.sorted_insertionSort privLe (g :: gs)⟩

/-- C5 counterexample: with zero privileges the `Grant.new` call site fails
with Python's missing-argument `TypeError`, not with `EmptyGrantError` (which
does not exist in the code). -/
theorem grant_new_zero_privileges_ce :
    Grant.newCall [] (RoleRef.strName "r") false = Except.error PyErr.typeError ∧
    Grant.newCall [] (RoleRef.strName "r") false ≠ Except.error PyErr.emptyGrantError := by
  constructor
  · rfl
  · intro h
    simp [Grant.newCall] at h

/-- C5 (amended): for every grantee argument, calling `Grant.new` with zero
privileges fails with Python's missing-positional-argument `TypeError`; no
`EmptyGrantError` is raised (none exists in the code). -/
theorem grant_new_zero_privileges_type_error (toArg : RoleRef) (opt : Bool) :
    Grant.newCall [] toArg opt = Except.error PyErr.typeError ∧
    Grant.newCall [] toArg opt ≠ Except.error PyErr.emptyGrantError := by
  constructor
  · rfl
  · intro h
    simp [Grant.newCall] at h

/-- C6: `explode` returns exactly `|grants| * |targets|` statements, each with
a single privilege and a single target, preserving grantee, grant_option,
revoke flag and grant_type. -/
theorem explode_atomic_units (s : GrantStatement) :
    s.explode.length = s.grant.grants.length * s.targets.length ∧
    ∀ e, e ∈ s.explode →
      e.grant.grants.length = 1 ∧ e.targets.length = 1 ∧
      e.grant.target_role = s.grant.target_role ∧
      e.grant.grant_option = s.grant.grant_option ∧
      e.grant.revoke_ = s.grant.revoke_ ∧
      e.grant_type = s.grant_type := by
  constructor
  · exact (flatMap_map_length s.targets s.grant.grants _).trans (Nat.mul_comm _ _)
  · intro e he
    unfold GrantStatement.explode at he
    simp only [List.mem_flatMap, List.mem_map] at he
    obtain ⟨t, _, p, _, rfl⟩ := he
    simp

/-- C6 witness: the theorem applied to a concrete two-privilege, two-target
statement and the first exploded element. -/
theorem explode_atomic_units_witness :
    (GrantStatement.explode
      ⟨⟨[PrivArg.kind Priv.select, PrivArg.kind Priv.insert], RoleRef.strName "r",
        false, false⟩, GrantTypes.table, ["a", "b"]⟩).length = 4 ∧
    ((GrantStatement.mk ⟨[PrivArg.kind Priv.select], RoleRef.strName "r", false, false⟩
        GrantTypes.table ["a"]).grant.grants.length = 1 ∧
      (GrantStatement.mk ⟨[PrivArg.kind Priv.select], RoleRef.strName "r", false, false⟩
        GrantTypes.table ["a"]).targets.length = 1 ∧
      (GrantStatement.mk ⟨[PrivArg.kind Priv.select], RoleRef.strName "r", false, false⟩
        GrantTypes.table ["a"]).grant.target_role = RoleRef.strName "r" ∧
      (GrantStatement.mk ⟨[PrivArg.kind Priv.select], RoleRef.strName "r", false, false⟩
        GrantTypes.table ["a"]).grant.grant_option = false ∧
      (GrantStatement.mk ⟨[PrivArg.kind Priv.select], RoleRef.strName "r", false, false⟩
        GrantTypes.table ["a"]).grant.revoke_ = false ∧
      (GrantStatement.mk ⟨[PrivArg.kind Priv.select], RoleRef.strName "r", false, false⟩
        GrantTypes.table ["a"]).grant_type = GrantTypes.table) := by
  have h := explode_atomic_units
    ⟨⟨[PrivArg.kind Priv.select, PrivArg.kind Priv.insert], RoleRef.strName "r",
      false, false⟩, GrantTypes.table, ["a", "b"]⟩
  exact ⟨h.1, h.2 _ (by decide)⟩

/-- C7: double inversion is the identity on both `GrantStatement` and
`DefaultGrantStatement`, all fields unchanged. -/
theorem invert_invert_id (s : GrantStatement) (d : DefaultGrantStatement) :
    s.invert.invert = s ∧ d.invert.invert = d := by
  constructor
  · simp [GrantStatement.invert]
  · simp [DefaultGrantStatement.invert]

/-- C3 (code divergence, evaluated at the failing inputs): a revoke
`GrantStatement` with `grant_option` set DOES render the trailing
`WITH GRANT OPTION` (invalid PostgreSQL, contradicting the module's own
grammar docstring), and a non-revoke `DefaultGrantStatement` with
`grant_option` set NEVER renders it. -/
theorem grant_option_rendering_divergence :
    GrantStatement.toSql
      ⟨⟨[PrivArg.kind Priv.select], RoleRef.strName "r", true, true⟩,
        GrantTypes.table, ["foo"]⟩ =
      Except.ok "REVOKE SELECT ON TABLE \"foo\" FROM \"r\" WITH GRANT OPTION;" ∧
    DefaultGrantStatement.toSql
      ⟨⟨DefaultGrantTypes.table, ["public"], none⟩,
        ⟨[PrivArg.kind Priv.select], RoleRef.strName "r", true, false⟩⟩ =
      Except.ok "ALTER DEFAULT PRIVILEGES IN SCHEMA \"public\" GRANT SELECT ON TABLES TO \"r\";" :=
  ⟨rfl, rfl⟩

/-- C4 counterexample: permutations of the same target names passed to
`on_objects` render to DIFFERENT statement texts — the target list is kept in
argument order, not sorted. -/
theorem on_objects_target_order_ce :
    ((Grant.new (PrivArg.rawStr "select") [] (RoleRef.strName "r") false).on_objects
        [RoleRef.strName "b", RoleRef.strName "a"] GrantTypes.table).bind
        GrantStatement.toSql =
      Except.ok "GRANT SELECT ON TABLE \"b\", \"a\" TO \"r\";" ∧
    ((Grant.new (PrivArg.rawStr "select") [] (RoleRef.strName "r") false).on_objects
        [RoleRef.strName "a", RoleRef.strName "b"] GrantTypes.table).bind
        GrantStatement.toSql =
      Except.ok "GRANT SELECT ON TABLE \"a\", \"b\" TO \"r\";" ∧
    ("GRANT SELECT ON TABLE \"b\", \"a\" TO \"r\";" : String) ≠
      "GRANT SELECT ON TABLE \"a\", \"b\" TO \"r\";" :=
  ⟨rfl, rfl, by decide⟩

/-- C4 (amended): the ON-clause target list is double-quoted but NOT sorted —
`on_objects` stores the coerced names in exactly the order given, and `to_sql`
renders the comma-joined double-quoted list in that same order. -/
theorem to_sql_targets_given_order (g : Grant) (objects : List RoleRef) (ot : GrantTypes)
    (st : GrantStatement) (h : g.on_objects objects ot = Except.ok st) :
    st.targets = objects.map coerce_name ∧
    ∀ sql, st.toSql = Except.ok sql →
      substr (String.intercalate ", " ((objects.map coerce_name).map quoteIdent)) sql := by
  unfold Grant.on_objects at h
  cases hm : map_grant_names ot.kinds g.grants with
  | error e =>
    rw [hm] at h
    simp [Except.map] at h
  | ok gs =>
    rw [hm] at h
    simp only [Except.map] at h
    injection h with h'
    subst h'
    refine ⟨rfl, ?_⟩
    intro sql hsql
    unfold GrantStatement.toSql GrantStatement.toSqlParts at hsql
    cases hp : render_privilege
        (⟨{ g with grants := gs }, ot, objects.map coerce_name⟩ : GrantStatement).grant
        (⟨{ g with grants := gs }, ot, objects.map coerce_name⟩ : GrantStatement).grant_type.kinds with
    | error e =>
      rw [hp] at hsql
      simp [Except.map] at hsql
    | ok priv =>
      rw [hp] at hsql
      simp only [Except.map] at hsql
      injection hsql with hsql'
      subst hsql'
      exact substr_of_mem_parts (by simp)

/-- C4 amended-claim witness: the theorem applied to a concrete grant with
targets given in the order `b`, `a`. -/
theorem to_sql_targets_given_order_witness :
    (GrantStatement.mk ⟨[PrivArg.kind Priv.select], RoleRef.strName "r", false, false⟩
        GrantTypes.table ["b", "a"]).targets =
      [RoleRef.strName "b", RoleRef.strName "a"].map coerce_name ∧
    substr (String.intercalate ", "
        (([RoleRef.strName "b", RoleRef.strName "a"].map coerce_name).map quoteIdent))
      "GRANT SELECT ON TABLE \"b\", \"a\" TO \"r\";" := by
  have h := to_sql_targets_given_order
    (Grant.new (PrivArg.rawStr "select") [] (RoleRef.strName "r") false)
    [RoleRef.strName "b", RoleRef.strName "a"] GrantTypes.table
    (GrantStatement.mk ⟨[PrivArg.kind Priv.select], RoleRef.strName "r", false, false⟩
      GrantTypes.table ["b", "a"]) rfl
  exact ⟨h.1, h.2 _ rfl⟩

/-- C8: the rendered SQL of both statement types contains the verb GRANT with
the clause `TO "role"` when the revoke flag is unset, the verb REVOKE with
`FROM "role"` when it is set, and always ends with a semicolon. -/
theorem to_sql_verb_direction_semicolon (s : GrantStatement) (d : DefaultGrantStatement)
    (sql dsql : String) (hs : s.toSql = Except.ok sql) (hd : d.toSql = Except.ok dsql) :
    (s.grant.revoke_ = false →
      substr "GRANT" sql ∧ substr ("TO " ++ quoteIdent s.grant.target_role.pyStr) sql) ∧
    (s.grant.revoke_ = true →
      substr "REVOKE" sql ∧ substr ("FROM " ++ quoteIdent s.grant.target_role.pyStr) sql) ∧
    strEndsWith sql ";" ∧
    (d.grant.revoke_ = false →
      substr "GRANT" dsql ∧ substr ("TO " ++ quoteIdent d.grant.target_role.pyStr) dsql) ∧
    (d.grant.revoke_ = true →
      substr "REVOKE" dsql ∧ substr ("FROM " ++ quoteIdent d.grant.target_role.pyStr) dsql) ∧
    strEndsWith dsql ";" := by
  unfold GrantStatement.toSql GrantStatement.toSqlParts at hs
  unfold DefaultGrantStatement.toSql DefaultGrantStatement.toSqlParts at hd
  cases hp : render_privilege s.grant s.grant_type.kinds with
  | error e =>
    rw [hp] at hs
    simp [Except.map] at hs
  | ok priv =>
    rw [hp] at hs
    simp only [Except.map] at hs
    injection hs with hs'
    subst hs'
    cases hq : render_privilege d.grant d.default_grant.grant_type.kinds with
    | error e =>
      rw [hq] at hd
      simp [Except.map] at hd
    | ok dpriv =>
      rw [hq] at hd
      simp only [Except.map] at hd
      injection hd with hd'
      subst hd'
      refine ⟨?_, ?_, endsWith_semicolon _, ?_, ?_, endsWith_semicolon _⟩
      · intro hrev
        have hg : render_grant_or_revoke s.grant = "GRANT" := by
          simp [render_grant_or_revoke, hrev]
        have ht : render_to_or_from s.grant =
            "TO " ++ quoteIdent s.grant.target_role.pyStr := by
          simp [render_to_or_from, hrev]
        exact ⟨substr_of_mem_parts (by rw [← hg]; simp),
          substr_of_mem_parts (by rw [← ht]; simp)⟩
      · intro hrev
        have hg : render_grant_or_revoke s.grant = "REVOKE" := by
          simp [render_grant_or_revoke, hrev]
        have ht : render_to_or_from s.grant =
            "FROM " ++ quoteIdent s.grant.target_role.pyStr := by
          simp [render_to_or_from, hrev]
        exact ⟨substr_of_mem_parts (by rw [← hg]; simp),
          substr_of_mem_parts (by rw [← ht]; simp)⟩
      · intro hrev
        have hg : render_grant_or_revoke d.grant = "GRANT" := by
          simp [render_grant_or_revoke, hrev]
        have ht : render_to_or_from d.grant =
            "TO " ++ quoteIdent d.grant.target_role.pyStr := by
          simp [render_to_or_from, hrev]
        exact ⟨substr_of_mem_parts (by rw [← hg]; simp),
          substr_of_mem_parts (by rw [← ht]; simp)⟩
      · intro hrev
        have hg : render_grant_or_revoke d.grant = "REVOKE" := by
          simp [render_grant_or_revoke, hrev]
        have ht : render_to_or_from d.grant =
            "FROM " ++ quoteIdent d.grant.target_role.pyStr := by
          simp [render_to_or_from, hrev]
        exact ⟨substr_of_mem_parts (by rw [← hg]; simp),
          substr_of_mem_parts (by rw [← ht]; simp)⟩

/-- C8 witness: the theorem applied to a concrete grant statement and a
concrete default-grant statement. -/
theorem to_sql_verb_direction_semicolon_witness :
    substr "GRANT" "GRANT SELECT ON TABLE \"foo\" TO \"r\";" ∧
    substr "TO \"r\"" "GRANT SELECT ON TABLE \"foo\" TO \"r\";" ∧
    strEndsWith "GRANT SELECT ON TABLE \"foo\" TO \"r\";" ";" ∧
    strEndsWith "ALTER DEFAULT PRIVILEGES IN SCHEMA \"public\" GRANT SELECT ON TABLES TO \"r\";"
      ";" := by
  have h := to_sql_verb_direction_semicolon
    ⟨⟨[PrivArg.kind Priv.select], RoleRef.strName "r", false, false⟩,
      GrantTypes.table, ["foo"]⟩
    ⟨⟨DefaultGrantTypes.table, ["public"], none⟩,
      ⟨[PrivArg.kind Priv.select], RoleRef.strName "r", false, false⟩⟩
    "GRANT SELECT ON TABLE \"foo\" TO \"r\";"
    "ALTER DEFAULT PRIVILEGES IN SCHEMA \"public\" GRANT SELECT ON TABLES TO \"r\";" rfl rfl
  exact ⟨(h.1 rfl).1, (h.1 rfl).2, h.2.2.1, h.2.2.2.2.2⟩

theorem map_schema_names_sorted (l : List RoleRef) :
    List.Sorted pyStrLe (map_schema_names l) :=
  List.sorted_insertionSort pyStrLe _

theorem map_schema_names_perm_eq {l₁ l₂ : List RoleRef} (h : List.Perm l₁ l₂) :
    map_schema_names l₁ = map_schema_names l₂ :=
  List.eq_of_perm_of_sorted
    ((List.perm_insertionSort pyStrLe _).trans
      ((h.map coerce_name).trans (List.perm_insertionSort pyStrLe _).symm))
    (map_schema_names_sorted l₁) (map_schema_names_sorted l₂)

/-- C9: every `DefaultGrant` public constructor sorts its schema list, and two
constructions from permutations of the same schemas are equal values. -/
theorem default_grant_schemas_sorted_perm_invariant (l₁ l₂ : List RoleRef) (r : Option RoleRef)
    (hperm : List.Perm l₁ l₂) :
    (List.Sorted pyStrLe (DefaultGrant.on_tables_in_schema l₁ r).in_schemas ∧
      DefaultGrant.on_tables_in_schema l₁ r = DefaultGrant.on_tables_in_schema l₂ r) ∧
    (List.Sorted pyStrLe (DefaultGrant.on_sequences_in_schema l₁ r).in_schemas ∧
      DefaultGrant.on_sequences_in_schema l₁ r = DefaultGrant.on_sequences_in_schema l₂ r) ∧
    (List.Sorted pyStrLe (DefaultGrant.on_types_in_schema l₁ r).in_schemas ∧
      DefaultGrant.on_types_in_schema l₁ r = DefaultGrant.on_types_in_schema l₂ r) ∧
    (List.Sorted pyStrLe (DefaultGrant.on_functions_in_schema l₁ r).in_schemas ∧
      DefaultGrant.on_functions_in_schema l₁ r = DefaultGrant.on_functions_in_schema l₂ r) := by
  have he := map_schema_names_perm_eq hperm
  refine ⟨⟨map_schema_names_sorted l₁, ?_⟩, ⟨map_schema_names_sorted l₁, ?_⟩,
    ⟨map_schema_names_sorted l₁, ?_⟩, ⟨map_schema_names_sorted l₁, ?_⟩⟩ <;>
    simp [DefaultGrant.on_tables_in_schema, DefaultGrant.on_sequences_in_schema,
      DefaultGrant.on_types_in_schema, DefaultGrant.on_functions_in_schema, he]

/-- C9 witness: the theorem applied to two concrete permutations. -/
theorem default_grant_schemas_witness :
    DefaultGrant.on_tables_in_schema [RoleRef.strName "b", RoleRef.strName "a"] none =
      DefaultGrant.on_tables_in_schema [RoleRef.strName "a", RoleRef.strName "b"] none :=
  (default_grant_schemas_sorted_perm_invariant _ _ none (by decide)).1.2

/-- C10: name coercion is asymmetric — `Grant.new` and
`GrantStatement.for_role` resolve a name-bearing object to its `.name` string,
while `DefaultGrant.grant` and `DefaultGrantStatement.for_role` store the
object itself unresolved. -/
theorem name_coercion_asymmetry (n : String) (p : PrivArg) (gs : List PrivArg) (opt : Bool)
    (s : GrantStatement) (d : DefaultGrantStatement) (dg : DefaultGrant)
    (st : DefaultGrantStatement)
    (h : dg.grant (GrantArg.privArg p) gs (RoleRef.objNamed n) opt = Except.ok st) :
    (Grant.new p gs (RoleRef.objNamed n) opt).target_role = RoleRef.strName n ∧
    (s.for_role (RoleRef.objNamed n)).grant.target_role = RoleRef.strName n ∧
    st.grant.target_role = RoleRef.objNamed n ∧
    (d.for_role (RoleRef.objNamed n)).default_grant.target_role =
      some (RoleRef.objNamed n) := by
  refine ⟨rfl, rfl, ?_, rfl⟩
  simp only [DefaultGrant.grant] at h
  cases hm : map_grant_names dg.grant_type.kinds (p :: gs) with
  | error e =>
    rw [hm] at h
    simp [Except.map] at h
  | ok coerced =>
    rw [hm] at h
    simp only [Except.map] at h
    injection h with h'
    subst h'
    rfl

/-- C10 witness: the theorem applied to concrete values with a name-bearing
object called `role1`. -/
theorem name_coercion_asymmetry_witness :
    (Grant.new (PrivArg.rawStr "select") [] (RoleRef.objNamed "role1") false).target_role =
      RoleRef.strName "role1" ∧
    ((GrantStatement.mk ⟨[PrivArg.kind Priv.select], RoleRef.strName "x", false, false⟩
        GrantTypes.table ["t"]).for_role (RoleRef.objNamed "role1")).grant.target_role =
      RoleRef.strName "role1" ∧
    (DefaultGrantStatement.mk ⟨DefaultGrantTypes.table, ["public"], none⟩
        ⟨[PrivArg.kind Priv.select], RoleRef.objNamed "role1", false, false⟩).grant.target_role =
      RoleRef.objNamed "role1" ∧
    ((DefaultGrantStatement.mk ⟨DefaultGrantTypes.table, ["public"], none⟩
        ⟨[PrivArg.kind Priv.select], RoleRef.strName "x", false, false⟩).for_role
        (RoleRef.objNamed "role1")).default_grant.target_role =
      some (RoleRef.objNamed "role1") :=
  name_coercion_asymmetry "role1" (PrivArg.rawStr "select") [] false
    (GrantStatement.mk ⟨[PrivArg.kind Priv.select], RoleRef.strName "x", false, false⟩
      GrantTypes.table ["t"])
    (DefaultGrantStatement.mk ⟨DefaultGrantTypes.table, ["public"], none⟩
      ⟨[PrivArg.kind Priv.select], RoleRef.strName "x", false, false⟩)
    (DefaultGrant.mk DefaultGrantTypes.table ["public"] none)
    (DefaultGrantStatement.mk ⟨DefaultGrantTypes.table, ["public"], none⟩
      ⟨[PrivArg.kind Priv.select], RoleRef.objNamed "role1", false, false⟩) rfl

end SqlaDeclExt
